import Mathlib

/-!
Verification development for the feishu-claude-bridge repository.

The JavaScript sources are shallowly embedded here.  Strings are modelled as
`List Char` (`Str`), so that every operation is a structural recursion the
kernel can evaluate.  JavaScript regular-expression tests and captures are
modelled by a small backtracking matcher (`RE`, `matchAt`) whose enumeration
order mirrors the JS engine: leftmost position first, alternatives in source
order, greedy character-class repetition.  The confidence score is stored
scaled by 10 (`6` stands for 0.6, `3` for the 0.3 threshold, `10` for the 1.0
cap): every confidence the code can build is a multiple of 0.1, and every
comparison the code performs on confidences (`< 0.3`, the cap at 1) yields
the same verdict for the scaled integers as for the IEEE doubles, since the
reachable values (0, 0.2, 0.4, 0.6, 0.8, 1 up to double rounding) are all far
from the thresholds compared against.
-/

/-- Strings of the embedded program. -/
abbrev Str := List Char

/-- Coerce a Lean string literal to the embedded string type. -/
def str (s : String) : Str := s.data

/-- Unicode scalar value of a character, as a `Nat`. -/
def cVal (c : Char) : Nat := c.toNat

/-- ASCII lower-casing on scalar values; JS `/i` matching is modelled for the
ASCII letters occurring in the source patterns (CJK characters are unaffected
by case folding). -/
def lowerVal (c : Char) : Nat :=
  if 65 ≤ cVal c ∧ cVal c ≤ 90 then cVal c + 32 else cVal c

/-- Case-insensitive character equality (models JS `/i`). -/
def ciEq (a b : Char) : Bool := lowerVal a == lowerVal b

/-- Case-insensitive prefix test. -/
def ciPrefix : Str → Str → Bool
  | [], _ => true
  | _ :: _, [] => false
  | a :: as, b :: bs => ciEq a b && ciPrefix as bs

/-- The JS `\s` character class (also the set trimmed by `String.trim`). -/
def isJsSpace (c : Char) : Bool :=
  let n := cVal c
  (9 ≤ n && n ≤ 13) || n == 32 || n == 160 || n == 0x1680 ||
  (0x2000 ≤ n && n ≤ 0x200a) || n == 0x2028 || n == 0x2029 ||
  n == 0x202f || n == 0x205f || n == 0x3000 || n == 0xfeff

/-- JS `String.prototype.trim`. -/
def jsTrim (s : Str) : Str :=
  ((s.dropWhile isJsSpace).reverse.dropWhile isJsSpace).reverse

/-- All suffixes of a string, longest (leftmost start position) first. -/
def suffixes : Str → List Str
  | [] => [[]]
  | c :: s => (c :: s) :: suffixes s

/-- JS `String.prototype.includes` (case-sensitive substring test). -/
def containsSub (s sub : Str) : Bool :=
  (suffixes s).any (fun t => sub.isPrefixOf t)

/-- JS `String.prototype.split` with a single-character separator. -/
def splitOnChar (sep : Char) : Str → List Str
  | [] => [[]]
  | c :: rest =>
    let r := splitOnChar sep rest
    if c = sep then [] :: r
    else
      match r with
      | h :: t => (c :: h) :: t
      | [] => [[c]]

/-- Suffix following the first occurrence of `sep`, if any. -/
def dropToSep (sep : Str) : Str → Option Str
  | [] => none
  | c :: r =>
    if sep.isPrefixOf (c :: r) then some (List.drop sep.length (c :: r))
    else dropToSep sep r

/-- Longest prefix not containing an occurrence of `sep`. -/
def takeToSep (sep : Str) : Str → Str
  | [] => []
  | c :: r => if sep.isPrefixOf (c :: r) then [] else c :: takeToSep sep r

/-- JS `s.split(sep)[1]`: the text between the first and the second
occurrence of the separator (`none` when the separator is absent, in which
case the JS code would fault on the subsequent `.trim()`). -/
def splitSecond (sep : Str) (s : Str) : Option Str :=
  (dropToSep sep s).map (takeToSep sep)

/-- UTF-16 code units contributed by one character (JS string indices count
UTF-16 units). -/
def utf16Units (c : Char) : Nat := if cVal c < 0x10000 then 1 else 2

/-- JS `String.prototype.length`. -/
def utf16Len (s : Str) : Nat := (s.map utf16Units).sum

/-- JS `substring(0, n)`: take a prefix of at most `n` UTF-16 units (a pair
is never split, which agrees with JS on every string the program builds). -/
def utf16Take (n : Nat) : Str → Str
  | [] => []
  | c :: rest =>
    if utf16Units c ≤ n ∧ n ≠ 0 then c :: utf16Take (n - utf16Units c) rest
    else []

/-- Leading-decimal-digit parse with the `parseInt(x) || 0` fallback used by
the session parser (`NaN` coerces to 0). -/
def parseIntOr0 (s : Str) : Nat :=
  match s.takeWhile (fun c => 48 ≤ cVal c && cVal c ≤ 57) with
  | [] => 0
  | ds => ds.foldl (fun a c => a * 10 + (cVal c - 48)) 0

/-- Digit character of JS `Number.prototype.toString(36)`. -/
def base36digit (n : Nat) : Char :=
  if n < 10 then Char.ofNat (48 + n) else Char.ofNat (87 + n)

/-- Fuel-driven base-36 digits, most significant first (fuel bounds the digit
count, so the recursion is structural and kernel-evaluable). -/
def natToBase36Aux : Nat → Nat → Str
  | 0, _ => []
  | fuel + 1, n =>
    if n = 0 then [] else natToBase36Aux fuel (n / 36) ++ [base36digit (n % 36)]

/-- JS `n.toString(36)` for natural `n` (as used on `Date.now()`). -/
def natToBase36 (n : Nat) : Str :=
  if n = 0 then [Char.ofNat 48] else natToBase36Aux (n + 1) n

/- ### A small backtracking regular-expression matcher

Only the combinators the source patterns need: literals (matched
case-insensitively, modelling `/i`), single-character classes, concatenation,
ordered alternation, and greedy `*` / `+` over a character class. -/

/-- Regular expressions of the source patterns. -/
inductive RE where
  | eps : RE
  | pred : (Char → Bool) → RE
  | lit : Str → RE
  | cat : RE → RE → RE
  | alt : RE → RE → RE
  | star : (Char → Bool) → RE
  | plus : (Char → Bool) → RE

/-- Remainders after a greedy `p*` at the start of `s`, longest match first. -/
def starRem (p : Char → Bool) (s : Str) : List Str :=
  let w := (s.takeWhile p).length
  (List.range (w + 1)).map (fun i => s.drop (w - i))

/-- Remainders after a greedy `p+` at the start of `s`, longest match first. -/
def plusRem (p : Char → Bool) (s : Str) : List Str :=
  let w := (s.takeWhile p).length
  (List.range w).map (fun i => s.drop (w - i))

/-- All remainders of matches of `r` at the start of `s`, in JS backtracking
order (greedy repetitions longest first, alternatives in source order). -/
def matchAt : RE → Str → List Str
  | .eps, s => [s]
  | .pred _, [] => []
  | .pred p, c :: s => if p c then [s] else []
  | .lit l, s => if ciPrefix l s then [s.drop l.length] else []
  | .cat a b, s => ((matchAt a s).map (matchAt b)).flatten
  | .alt a b, s => matchAt a s ++ matchAt b s
  | .star p, s => starRem p s
  | .plus p, s => plusRem p s

/-- JS `RegExp.prototype.test`: does `r` match anywhere in `s`? -/
def reTest (r : RE) (s : Str) : Bool :=
  (suffixes s).any (fun t => !(matchAt r t).isEmpty)

/-- First nonempty `([^\n]+)` capture after a match of prefix `r` here, in
backtracking order. -/
def capHere (r : RE) (t : Str) : Option Str :=
  (matchAt r t).findSome? (fun rem =>
    let cap := rem.takeWhile (fun c => c ≠ '\n')
    if cap.isEmpty then none else some cap)

/-- JS `s.match(/<r>([^\n]+)/)` group 1: leftmost position first, then
backtracking order at that position. -/
def firstCapture (r : RE) (s : Str) : Option Str :=
  (suffixes s).findSome? (capHere r)

/-- Sequence a list of regular expressions. -/
def reSeq (l : List RE) : RE := l.foldr RE.cat RE.eps

/-- Ordered alternation of a nonempty pattern list (the trailing never-match
alternative is inert). -/
def reAlts (l : List RE) : RE := l.foldr RE.alt (RE.pred (fun _ => false))

/-- Literal pattern fragment. -/
def reLit (s : String) : RE := RE.lit s.data

/-- The `[:：]` character class of the Chinese-or-ASCII-colon patterns. -/
def reColon : RE := RE.pred (fun c => c == ':' || c == '：')

/-- `\s*`. -/
def reWsStar : RE := RE.star isJsSpace

/-- `\s+`. -/
def reWs1 : RE := RE.plus isJsSpace

/- ### ResultAnalyzer (src/modules/ResultAnalyzer.js)

The pattern lists below transcribe the regex literals of the constructor. -/

namespace ResultAnalyzer

/-- `this.nextPhasePatterns`, each without its trailing `([^\n]+)` capture
group (captures are taken by `firstCapture`). -/
def nextPhasePatterns : List RE :=
  [ reSeq [reAlts [reLit "下一阶段",
                   reSeq [reLit "next", reWsStar, reLit "phase"],
                   reSeq [reLit "next", reWsStar, reLit "step"]],
           reColon, reWsStar],
    reSeq [reAlts [reLit "阶段目标",
                   reSeq [reLit "phase", reWsStar, reLit "goal"],
                   reSeq [reLit "step", reWsStar, reLit "goal"]],
           reColon, reWsStar],
    reSeq [reAlts [reLit "继续", reLit "continue"], reColon, reWsStar],
    reSeq [reLit "NEXT_PHASE:", reWsStar],
    reSeq [reLit "NEXT_GOAL:", reWsStar] ]

/-- `this.completionPatterns`. -/
def completionPatterns : List RE :=
  [ reAlts [reLit "完成", reLit "completed", reLit "done", reLit "finished",
            reLit "success"],
    reAlts [reLit "任务结束",
            reSeq [reLit "task", reWs1, reLit "completed"],
            reSeq [reLit "task", reWs1, reLit "done"]],
    reAlts [reLit "没有下一阶段",
            reSeq [reLit "no", reWs1, reLit "next", reWs1, reLit "phase"],
            reSeq [reLit "no", reWs1, reLit "next", reWs1, reLit "step"]] ]

/-- `this.errorPatterns`. -/
def errorPatterns : List RE :=
  [ reAlts [reLit "错误", reLit "error", reLit "failed", reLit "failure"],
    reAlts [reLit "异常", reLit "exception", reLit "crash"] ]

/-- The first two of `this.inputPatterns` (the third, `/\?$/`, is the
end-of-string test below). -/
def inputPatterns : List RE :=
  [ reAlts [reLit "请输入",
            reSeq [reLit "please", reWs1, reLit "input"],
            reSeq [reLit "enter", reWs1, reLit "your"]],
    reAlts [reLit "等待", reLit "waiting", reLit "awaiting"] ]

/-- The continuation-keyword pattern of `calculateConfidence`:
`/继续|下一步|next|continue/i`. -/
def continuationKw : RE :=
  reAlts [reLit "继续", reLit "下一步", reLit "next", reLit "continue"]

/-- `checkCompletion`. -/
def checkCompletion (output : Str) : Bool :=
  completionPatterns.any (fun p => reTest p output)

/-- `checkError`. -/
def checkError (output : Str) : Bool :=
  errorPatterns.any (fun p => reTest p output)

/-- `checkInput` (the `/\?$/` member of the pattern list is an
end-of-string test, since JS `$` without the `m` flag anchors only there). -/
def checkInput (output : Str) : Bool :=
  inputPatterns.any (fun p => reTest p output) || output.getLast? == some '?'

/-- `extractNextPhase`: first pattern (in list order) whose leftmost match
has a nonempty capture wins; otherwise fall back to the last nonempty line
when that line matches neither the completion nor the error patterns. -/
def extractNextPhase (output : Str) : Option Str :=
  match nextPhasePatterns.findSome? (fun p => firstCapture p output) with
  | some cap => some cap
  | none =>
    let lines := (splitOnChar '\n' output).filter (fun l => !(jsTrim l).isEmpty)
    match lines.getLast? with
    | none => none
    | some last =>
      let lastLine := jsTrim last
      if !(completionPatterns.any (fun p => reTest p lastLine)) &&
         !(errorPatterns.any (fun p => reTest p lastLine)) then
        some lastLine
      else
        none

/-- `calculateConfidence` (+0.6 explicit marker, +0.2 length > 10, +0.2
continuation keyword, capped at 1), scaled by 10.  A full next-phase
pattern, capture included, tests positive exactly when `firstCapture`
succeeds. -/
def calculateConfidence (output : Str) (nextPhase : Str) : Nat :=
  let c1 := if nextPhasePatterns.any (fun p => (firstCapture p output).isSome)
            then 6 else 0
  let c2 := if !nextPhase.isEmpty ∧ 10 < utf16Len nextPhase then 2 else 0
  let c3 := if reTest continuationKw output then 2 else 0
  min (c1 + c2 + c3) 10

end ResultAnalyzer

/-- The result object built by `ClaudeAdapter.executePrompt` /
`IFlowAdapter.executeSkill` on process exit, and consumed by
`ResultAnalyzer.analyze`.  `output` and `command` are optional because
`analyze` guards them for absence (JS truthiness). -/
structure ExecutionResult where
  success : Bool
  exitCode : Int
  output : Option Str
  error : Str
  duration : Nat
  command : Option Str
  sessionId : Str
deriving DecidableEq, Repr

/-- The analysis object of `ResultAnalyzer.analyze`. -/
structure Analysis where
  canContinue : Bool
  nextPhase : Option Str
  isComplete : Bool
  hasError : Bool
  needsInput : Bool
  summary : Str
  /-- Confidence scaled by 10 (`6` models the source's 0.6). -/
  confidence : Nat
deriving DecidableEq, Repr

namespace ResultAnalyzer

/-- The initial (neutral) analysis object of `analyze`. -/
def neutralAnalysis : Analysis :=
  { canContinue := false, nextPhase := none, isComplete := false,
    hasError := false, needsInput := false, summary := [], confidence := 0 }

/-- Lines 62–79 of `analyze`: the classification fields, computed from the
output text alone (summary still empty at this point). -/
def analyzeCore (output : Str) : Analysis :=
  let isComplete := checkCompletion output
  let hasError := checkError output
  let needsInput := checkInput output
  let base := { neutralAnalysis with
                isComplete := isComplete, hasError := hasError,
                needsInput := needsInput }
  if isComplete then base
  else
    match extractNextPhase output with
    | some nextPhase =>
      { base with nextPhase := some (jsTrim nextPhase), canContinue := true,
                  confidence := calculateConfidence output nextPhase }
    | none => base

/-- `generateSummary`. -/
def generateSummary (result : ExecutionResult) (analysis : Analysis) : Str :=
  let s1 :=
    if analysis.hasError then str "❌ 执行出现错误\n"
    else if analysis.isComplete then str "✅ 任务已完成\n"
    else str "⏳ 执行中\n"
  let s2 :=
    match result.command with
    | some c => if c.isEmpty then [] else str "命令: " ++ c ++ ['\n']
    | none => []
  let s3 :=
    match analysis.nextPhase with
    | some p => if p.isEmpty then [] else str "下一阶段: " ++ p ++ ['\n']
    | none => []
  let s4 :=
    match result.output with
    | some o =>
      if o.isEmpty then []
      else
        str "输出: " ++
          utf16Take 200 (o.map (fun c => if c = '\n' then ' ' else c)) ++
          str "...\n"
    | none => []
  jsTrim (s1 ++ s2 ++ s3 ++ s4)

/-- `analyze`: early neutral return when the result is null/undefined or its
`output` is absent or empty (JS falsy); otherwise the classification fields
from `analyzeCore` with the summary appended. -/
def analyze (result : Option ExecutionResult) : Analysis :=
  match result with
  | none => neutralAnalysis
  | some r =>
    match r.output with
    | none => neutralAnalysis
    | some output =>
      if output.isEmpty then neutralAnalysis
      else
        let core := analyzeCore output
        { core with summary := generateSummary r core }

/-- `needsIntervention` (`maxLoopDepth` stands for
`parseInt(process.env.MAX_LOOP_DEPTH || '100')`). -/
def needsIntervention (maxLoopDepth : Nat) (analysis : Analysis)
    (loopDepth : Nat) : Bool :=
  if analysis.hasError then true
  else if analysis.needsInput then true
  else if maxLoopDepth ≤ loopDepth then true
  else if analysis.canContinue && analysis.confidence < 3 then true
  else false

end ResultAnalyzer

/- ### ClaudeAdapter (src/modules/ClaudeAdapter.js) and
IFlowAdapter (src/modules/IFlowAdapter.js)

A subprocess run is described by a `SpawnBehavior`: either the `error` event
fires (the process could not be started), or the process emits its output and
closes `closesAfterMs` milliseconds after launch with the given exit code.
The promise executor settles on the first signal: the timeout timer fires
first exactly when the close event has not arrived within the budget (after
the timer kills the child, the later `resolve` on 'close' is a no-op). -/

/-- Behaviour of one spawned subprocess. -/
inductive SpawnBehavior where
  | failToStart (message : Str)
  | runs (closesAfterMs : Nat) (exitCode : Int) (stdout stderr : Str)
deriving DecidableEq, Repr

/-- How a single `executePrompt` / `executeSkill` / `execute` promise
settles: a launch failure and a timeout reject; everything else resolves. -/
inductive AdapterError where
  | launchFailure (message : Str)
  | timeoutFailure
  | genericFailure
deriving DecidableEq, Repr

/-- `ClaudeAdapter.executePrompt` (`timeoutPerStep` is in seconds).  On
'close' before the deadline it resolves with a populated result — also for a
non-zero exit code; on timeout it rejects with an `Error`; on the 'error'
event it rejects with the spawn error. -/
def ClaudeAdapter.executePrompt (timeoutPerStep : Nat) (prompt sessionId : Str)
    (b : SpawnBehavior) : Except AdapterError ExecutionResult :=
  match b with
  | .failToStart msg => .error (.launchFailure msg)
  | .runs closesAfterMs exitCode stdout stderr =>
    if timeoutPerStep * 1000 ≤ closesAfterMs then .error .timeoutFailure
    else
      .ok { success := exitCode == 0, exitCode := exitCode,
            output := some stdout, error := stderr,
            duration := closesAfterMs, command := some prompt,
            sessionId := sessionId }

/-- `IFlowAdapter.executeSkill`: identical settle policy (the `--yolo`
argument the adapter may append does not change it). -/
def IFlowAdapter.executeSkill (timeoutPerStep : Nat) (skillInput sessionId : Str)
    (b : SpawnBehavior) : Except AdapterError ExecutionResult :=
  match b with
  | .failToStart msg => .error (.launchFailure msg)
  | .runs closesAfterMs exitCode stdout stderr =>
    if timeoutPerStep * 1000 ≤ closesAfterMs then .error .timeoutFailure
    else
      .ok { success := exitCode == 0, exitCode := exitCode,
            output := some stdout, error := stderr,
            duration := closesAfterMs, command := some skillInput,
            sessionId := sessionId }

/-- Observable behaviour of one `executeWithRetry` call: how many times the
underlying execute method was launched, the back-off delays slept between
attempts (milliseconds, in order), and the settled outcome. -/
structure RetryTrace where
  launches : Nat
  delays : List Nat
  outcome : Except AdapterError ExecutionResult
deriving Repr

/-- The retry loop body shared verbatim by `ClaudeAdapter.executeWithRetry`
and `IFlowAdapter.executeWithRetry` (`attempts` gives the settle result of
the underlying execute call at each 1-based attempt number; `fuel` is
`maxRetries - attempt`, so the recursion is structural).  A success returns
immediately; the last attempt returns its failed result or rethrows its
error; otherwise the loop sleeps `1000 * attempt` ms and retries. -/
def retryLoop (attempts : Nat → Except AdapterError ExecutionResult) :
    Nat → Nat → RetryTrace
  | attempt, 0 =>
    -- attempt = maxRetries: return the result (failed or not) / rethrow
    match attempts attempt with
    | .ok r => ⟨1, [], .ok r⟩
    | .error e => ⟨1, [], .error e⟩
  | attempt, fuel + 1 =>
    match attempts attempt with
    | .ok r =>
      if r.success then ⟨1, [], .ok r⟩
      else
        let rest := retryLoop attempts (attempt + 1) fuel
        ⟨1 + rest.launches, 1000 * attempt :: rest.delays, rest.outcome⟩
    | .error _ =>
      let rest := retryLoop attempts (attempt + 1) fuel
      ⟨1 + rest.launches, 1000 * attempt :: rest.delays, rest.outcome⟩

/-- `executeWithRetry` (both adapters): run up to `maxRetries` attempts with
linear back-off `1000 * attempt`; with `maxRetries = 0` the loop never runs
and the trailing `throw lastError || new Error(..)` raises the generic
error. -/
def executeWithRetry (attempts : Nat → Except AdapterError ExecutionResult)
    (maxRetries : Nat) : RetryTrace :=
  match maxRetries with
  | 0 => ⟨0, [], .error .genericFailure⟩
  | m + 1 => retryLoop attempts 1 m

/- ### sessionIdGenerator (src/utils/sessionIdGenerator.js) and the
admission guard of EventHandler (src/modules/EventHandler.js)

`extractSessionId` hashes `userId + '_' + chatId` with md5; the hash itself
is irrelevant to the properties below, so it is a parameter (any function
standing for the md5 hex digest).  What matters is that the id also embeds
`Date.now().toString(36)`. -/

/-- `extractSessionId(chatId, senderId)`: joins `'session_'`, the first 8
hex characters of `md5(userId + '_' + chatId)` and the base-36 rendering of
`Date.now()` (`nowMs`).  The `|| 'unknown'` defaults model JS falsiness of
the empty string. -/
def extractSessionId (md5hex : Str → Str) (chatId senderId : Str)
    (nowMs : Nat) : Str :=
  let userId := if senderId.isEmpty then str "unknown" else senderId
  let chatIdStr := if chatId.isEmpty then str "unknown" else chatId
  let hash := (md5hex (userId ++ ['_'] ++ chatIdStr)).take 8
  (str "session_" ++ hash ++ ['_']) ++ natToBase36 nowMs

/-- The admission check of `EventHandler.handle` (lines 519–524): the
message is skipped iff the session id freshly computed for it is already in
`this.processingSessions`. -/
def EventHandler.rejectsMessage (processingSessions : List Str)
    (md5hex : Str → Str) (chatId senderId : Str) (nowMs : Nat) : Bool :=
  processingSessions.contains (extractSessionId md5hex chatId senderId nowMs)

/- ### SessionManager (src/modules/SessionManager.js) -/

/-- Decimal digits of a `Nat`, most significant first (fuel-driven so the
recursion is structural); models the JS template interpolation of an
integer. -/
def natToDecAux : Nat → Nat → Str
  | 0, _ => []
  | fuel + 1, n =>
    if n = 0 then [] else natToDecAux fuel (n / 10) ++ [base36digit (n % 10)]

/-- JS `${n}` for a natural number. -/
def natToDecimal (n : Nat) : Str :=
  if n = 0 then [Char.ofNat 48] else natToDecAux (n + 1) n

/-- JS truthiness of an optional string (`undefined`, `null` and `''` are
falsy). -/
def jsTruthy : Option Str → Bool
  | some s => !s.isEmpty
  | none => false

/-- JS `x || 'default'` on an optional string. -/
def jsOrDefault (o : Option Str) (d : Str) : Str :=
  if jsTruthy o then o.getD [] else d

/-- One entry of `session.history` (the object built by
`addExecutionRecord`, and the `currentRecord` shape of the parser). -/
structure SessionRecord where
  timestamp : Str
  command : Str
  output : Str
  success : Bool
  nextPhase : Option Str
  loopDepth : Nat
deriving DecidableEq, Repr

/-- The session object of `SessionManager`. -/
structure Session where
  id : Str
  userId : Str
  chatId : Str
  message : Str
  status : Str
  createdAt : Str
  updatedAt : Str
  history : List SessionRecord
  loopDepth : Nat
  nextPhase : Option Str
  lastActivity : Str
deriving DecidableEq, Repr

/-- The record argument of `addExecutionRecord` (fields the caller passes). -/
structure RecordInput where
  command : Str
  output : Str
  success : Bool
  nextPhase : Option Str
deriving DecidableEq, Repr

namespace SessionManager

/-- `createSession` (`now` stands for `new Date().toISOString()`). -/
def createSession (sessionId : Str) (senderUserId chatId messageContent : Option Str)
    (now : Str) : Session :=
  { id := sessionId,
    userId := jsOrDefault senderUserId (str "unknown"),
    chatId := jsOrDefault chatId (str "unknown"),
    message := jsOrDefault messageContent [],
    status := str "active",
    createdAt := now, updatedAt := now,
    history := [], loopDepth := 0, nextPhase := none,
    lastActivity := now }

/-- `addExecutionRecord` followed by its `updateSession` call: push the
record (tagged with the pre-increment loop depth), increment `loopDepth` and
record `nextPhase` exactly when the incoming `record.nextPhase` is truthy,
then refresh `updatedAt`/`lastActivity`. -/
def addExecutionRecord (session : Session) (record : RecordInput) (now : Str) :
    Session :=
  let executionRecord : SessionRecord :=
    { timestamp := now, command := record.command, output := record.output,
      success := record.success, nextPhase := record.nextPhase,
      loopDepth := session.loopDepth }
  let s1 := { session with history := session.history ++ [executionRecord] }
  let s2 :=
    if jsTruthy record.nextPhase then
      { s1 with loopDepth := s1.loopDepth + 1, nextPhase := record.nextPhase }
    else s1
  { s2 with updatedAt := now, lastActivity := now }

/-- The per-record block of `formatSessionToMarkdown` (`### 执行 #i`). -/
def formatRecord (index : Nat) (record : SessionRecord) : Str :=
  str "### 执行 #" ++ natToDecimal (index + 1) ++ str "\n\n" ++
  str "- **时间**: " ++ record.timestamp ++ str "\n" ++
  str "- **命令**: " ++ record.command ++ str "\n" ++
  str "- **成功**: " ++ (if record.success then str "✅" else str "❌") ++ str "\n" ++
  (if jsTruthy record.nextPhase then
     str "- **下一阶段**: " ++ record.nextPhase.getD [] ++ str "\n"
   else []) ++
  str "- **循环深度**: " ++ natToDecimal record.loopDepth ++ str "\n" ++
  str "\n**输出**:\n\n" ++
  str "```\n" ++ record.output ++ str "\n```\n\n"

/-- The history blocks, in order, with 0-based indices. -/
def formatRecords (index : Nat) : List SessionRecord → Str
  | [] => []
  | r :: rest => formatRecord index r ++ formatRecords (index + 1) rest

/-- `formatSessionToMarkdown`. -/
def formatSessionToMarkdown (session : Session) : Str :=
  str "# 会话记录: " ++ session.id ++ str "\n\n" ++
  str "## 基本信息\n\n" ++
  str "- **会话 ID**: " ++ session.id ++ str "\n" ++
  str "- **用户 ID**: " ++ session.userId ++ str "\n" ++
  str "- **群组 ID**: " ++ session.chatId ++ str "\n" ++
  str "- **状态**: " ++ session.status ++ str "\n" ++
  str "- **创建时间**: " ++ session.createdAt ++ str "\n" ++
  str "- **更新时间**: " ++ session.updatedAt ++ str "\n" ++
  str "- **循环深度**: " ++ natToDecimal session.loopDepth ++ str "\n" ++
  (if jsTruthy session.nextPhase then
     str "- **下一阶段**: " ++ session.nextPhase.getD [] ++ str "\n"
   else []) ++
  str "\n## 原始消息\n\n" ++
  str "```\n" ++ session.message ++ str "\n```\n\n" ++
  str "## 执行历史\n\n" ++
  (if session.history.isEmpty then str "*暂无执行记录*\n\n"
   else formatRecords 0 session.history)

/-- The session object assembled by `parseSessionFromMarkdown`: every field
the parser may or may not see is optional (JS leaves it `undefined`). -/
structure ParsedSession where
  id : Option Str
  userId : Option Str
  chatId : Option Str
  status : Option Str
  createdAt : Option Str
  updatedAt : Option Str
  loopDepth : Option Nat
  nextPhase : Option Str
  message : Option Str
  history : List SessionRecord
deriving DecidableEq, Repr

/-- The empty parse state (`const session = { history: [] }`). -/
def emptyParsedSession : ParsedSession :=
  { id := none, userId := none, chatId := none, status := none,
    createdAt := none, updatedAt := none, loopDepth := none,
    nextPhase := none, message := none, history := [] }

/-- The `currentRecord` initialiser of the parser. -/
def freshRecord : SessionRecord :=
  { timestamp := [], command := [], output := [], success := true,
    nextPhase := none, loopDepth := 0 }

/-- `line.split(': ')[1].trim()` (total here; on every line the parser
applies it to, the separator is present). -/
def sv (line : Str) : Str := ((splitSecond (str ": ") line).map jsTrim).getD []

/-- `line.startsWith(p)`. -/
def lineStarts (p : String) (line : Str) : Bool := p.data.isPrefixOf line

/-- One iteration of the `for (const line of lines)` chain of
`parseSessionFromMarkdown`, in the source's branch order.  The two
`currentRecord`-level branches for `- **下一阶段**:` and `- **循环深度**:`
are kept although they are unreachable: the session-level branches above
them test the same prefixes first (this is the clobbering defect the
round-trip theorems exhibit). -/
def parseLine (st : ParsedSession × Bool × Option SessionRecord) (line : Str) :
    ParsedSession × Bool × Option SessionRecord :=
  let (s, inHistory, cur) := st
  if lineStarts "# 会话记录:" line then ({ s with id := some (sv line) }, inHistory, cur)
  else if lineStarts "- **用户 ID**:" line then ({ s with userId := some (sv line) }, inHistory, cur)
  else if lineStarts "- **群组 ID**:" line then ({ s with chatId := some (sv line) }, inHistory, cur)
  else if lineStarts "- **状态**:" line then ({ s with status := some (sv line) }, inHistory, cur)
  else if lineStarts "- **创建时间**:" line then ({ s with createdAt := some (sv line) }, inHistory, cur)
  else if lineStarts "- **更新时间**:" line then ({ s with updatedAt := some (sv line) }, inHistory, cur)
  else if lineStarts "- **循环深度**:" line then ({ s with loopDepth := some (parseIntOr0 (sv line)) }, inHistory, cur)
  else if lineStarts "- **下一阶段**:" line then ({ s with nextPhase := some (sv line) }, inHistory, cur)
  else if lineStarts "## 原始消息" line then (s, false, cur)
  else if lineStarts "## 执行历史" line then (s, true, cur)
  else if inHistory && lineStarts "### 执行 #" line then
    (match cur with
     | some r => ({ s with history := s.history ++ [r] }, inHistory, some freshRecord)
     | none => (s, inHistory, some freshRecord))
  else
    match cur with
    | none => (s, inHistory, none)
    | some r =>
      if lineStarts "- **时间**:" line then (s, inHistory, some { r with timestamp := sv line })
      else if lineStarts "- **命令**:" line then (s, inHistory, some { r with command := sv line })
      else if lineStarts "- **成功**:" line then (s, inHistory, some { r with success := containsSub line (str "✅") })
      else if lineStarts "- **下一阶段**:" line then (s, inHistory, some { r with nextPhase := some (sv line) })
      else if lineStarts "- **循环深度**:" line then (s, inHistory, some { r with loopDepth := parseIntOr0 (sv line) })
      else if lineStarts "**输出**:" line then (s, inHistory, some r)
      else if lineStarts "```" line && r.output.isEmpty then (s, inHistory, some r)
      else if lineStarts "```" line && !r.output.isEmpty then (s, inHistory, some r)
      else if (!lineStarts "```" line && !r.output.isEmpty) ||
              (!lineStarts "#" line && !lineStarts "-" line && !lineStarts "**" line) then
        (s, inHistory, some { r with output := r.output ++ line ++ ['\n'] })
      else (s, inHistory, some r)

/-- The final `messageMatch` regex `/## 原始消息\n\n```([^`]+)```/` of the
parser, at the first occurrence of its opening literal (the only occurrence
on any formatted session). -/
def parseOriginalMessage (markdown : Str) : Option Str :=
  match dropToSep (str "## 原始消息\n\n" ++ str "```") markdown with
  | none => none
  | some rest =>
    let cap := rest.takeWhile (fun c => c ≠ '`')
    if cap.isEmpty then none
    else if (str "```").isPrefixOf (rest.drop cap.length) then some (jsTrim cap)
    else none

/-- `parseSessionFromMarkdown`. -/
def parseSessionFromMarkdown (markdown : Str) : ParsedSession :=
  let lines := splitOnChar '\n' markdown
  let (s, _, cur) := lines.foldl parseLine (emptyParsedSession, false, none)
  let s :=
    match cur with
    | some r => { s with history := s.history ++ [r] }
    | none => s
  match parseOriginalMessage markdown with
  | some m => { s with message := some m }
  | none => s

end SessionManager

/- ### Concrete sample data used by the closed theorems below -/

/-- A failed (non-zero exit) adapter result. -/
def failedResult : ExecutionResult :=
  { success := false, exitCode := 1, output := some (str "boom"),
    error := str "err", duration := 5, command := some (str "cmd"),
    sessionId := str "sid" }

/-- A successful adapter result. -/
def okResult : ExecutionResult :=
  { success := true, exitCode := 0, output := some (str "fine"),
    error := [], duration := 5, command := some (str "cmd"),
    sessionId := str "sid" }

/-- Attempt behaviour: every launch exits non-zero. -/
def attemptsAlwaysFail : Nat → Except AdapterError ExecutionResult :=
  fun _ => .ok failedResult

/-- Attempt behaviour: the first launch exits non-zero, the second
succeeds. -/
def attemptsSucceedAt2 : Nat → Except AdapterError ExecutionResult :=
  fun n => if n = 2 then .ok okResult else .ok failedResult

/-- A session that has already reached the default configured maximum loop
depth (`MAX_LOOP_DEPTH` default 100), still active. -/
def sessionAtCap : Session :=
  { id := str "s", userId := str "u", chatId := str "c", message := str "m",
    status := str "active", createdAt := str "t0", updatedAt := str "t0",
    history := [], loopDepth := 100, nextPhase := some (str "p"),
    lastActivity := str "t0" }

/-- An execution record carrying a next phase (a Continue signal that was
accepted). -/
def continueRecord : RecordInput :=
  { command := str "cmd", output := str "out", success := true,
    nextPhase := some (str "Deploy") }

/-- A session with one history entry, as `addExecutionRecord` builds it: the
record is tagged with the pre-increment depth 0, the session depth is 1. -/
def roundtripSample : Session :=
  { id := str "s1", userId := str "u1", chatId := str "c1",
    message := str "hi", status := str "active", createdAt := str "t0",
    updatedAt := str "t1",
    history := [{ timestamp := str "t0", command := str "cmd",
                  output := str "out", success := true,
                  nextPhase := some (str "go"), loopDepth := 0 }],
    loopDepth := 1, nextPhase := some (str "go"), lastActivity := str "t1" }

/-- A result whose output is plain text with no marker, no pattern hit. -/
def helloResult : ExecutionResult :=
  { success := true, exitCode := 0, output := some (str "hello"),
    error := [], duration := 1, command := none, sessionId := str "sid" }

/-- Identical to `helloResult` except for the echoed command. -/
def helloResultCmd : ExecutionResult :=
  { success := true, exitCode := 0, output := some (str "hello"),
    error := [], duration := 1, command := some (str "cmd"),
    sessionId := str "sid" }

/-- Identical output to `helloResult`, different non-output fields. -/
def helloResultOther : ExecutionResult :=
  { success := false, exitCode := 7, output := some (str "hello"),
    error := str "e", duration := 99, command := none, sessionId := str "z" }

/-- A result whose output hits a completion keyword while also carrying an
explicit next-phase marker. -/
def doneWithMarkerResult : ExecutionResult :=
  { success := true, exitCode := 0,
    output := some (str "done NEXT_PHASE: Deploy to staging"),
    error := [], duration := 1, command := none, sessionId := str "sid" }

/-- A result whose output is exactly the claimed marker line. -/
def markerResult : ExecutionResult :=
  { success := true, exitCode := 0,
    output := some (str "NEXT_PHASE: Deploy to staging"),
    error := [], duration := 1, command := none, sessionId := str "sid" }

/-- A result with an empty output string. -/
def emptyOutputResult : ExecutionResult :=
  { success := false, exitCode := 3, output := some [], error := str "e",
    duration := 2, command := some (str "cmd"), sessionId := str "sid" }

/-- A result whose output field is absent. -/
def absentOutputResult : ExecutionResult :=
  { success := true, exitCode := 0, output := none, error := [],
    duration := 2, command := some (str "cmd"), sessionId := str "sid" }

/-- A result whose output hits a completion pattern only. -/
def doneResult : ExecutionResult :=
  { success := true, exitCode := 0, output := some (str "done"),
    error := [], duration := 1, command := none, sessionId := str "sid" }

/-- The marker text claim C9 quantifies over. -/
def markerText : Str := str "NEXT_PHASE: Deploy to staging"

/- ### Helper lemmas about the matcher -/

/-- `findSome?` succeeds when some element succeeds. -/
theorem findSome_isSome_of_mem {α β : Type} {f : α → Option β} {l : List α}
    {x : α} (hx : x ∈ l) (hfx : (f x).isSome) : (l.findSome? f).isSome := by
  induction l with
  | nil => cases hx
  | cons y ys ih =>
    rw [List.findSome?_cons]
    cases hfy : f y with
    | some b => simp
    | none =>
      rcases List.mem_cons.mp hx with rfl | hx2
      · rw [hfy] at hfx; cases hfx
      · exact ih hx2

/-- Case-insensitive equality is reflexive. -/
theorem ciEq_self (c : Char) : ciEq c c = true := by simp [ciEq]

/-- A case-insensitive prefix stays one under extension on the right. -/
theorem ciPrefix_append (a : Str) : ∀ b : Str, (r : Str) →
    ciPrefix a b = true → ciPrefix a (b ++ r) = true := by
  induction a with
  | nil => intro b r _; rfl
  | cons x xs ih =>
    intro b r h
    cases b with
    | nil => simp [ciPrefix] at h
    | cons y ys =>
      simp only [ciPrefix, Bool.and_eq_true] at h ⊢
      exact ⟨h.1, ih ys r h.2⟩

/-- Every string is a case-insensitive prefix of itself extended. -/
theorem ciPrefix_self_append (l r : Str) : ciPrefix l (l ++ r) = true := by
  induction l with
  | nil => rfl
  | cons x xs ih => simp [ciPrefix, ciEq_self, ih]

/-- A literal matches at the front of its own extension, leaving the rest. -/
theorem matchAt_lit_append (l rest : Str) :
    matchAt (RE.lit l) (l ++ rest) = [rest] := by
  simp [matchAt, ciPrefix_self_append, List.drop_left]

/-- The zero-repetition choice of a greedy star. -/
theorem self_mem_starRem (p : Char → Bool) (s : Str) : s ∈ starRem p s := by
  unfold starRem
  exact List.mem_map.mpr ⟨(s.takeWhile p).length,
    List.mem_range.mpr (Nat.lt_succ_self _), by simp⟩

/-- Remainders compose through concatenation. -/
theorem mem_matchAt_cat {a b : RE} {s x y : Str}
    (hx : x ∈ matchAt a s) (hy : y ∈ matchAt b x) :
    y ∈ matchAt (RE.cat a b) s := by
  simp only [matchAt]
  exact List.mem_flatten.mpr ⟨matchAt b x, List.mem_map.mpr ⟨x, hx, rfl⟩, hy⟩

/-- A match of the pattern somewhere in the string makes `test` true. -/
theorem reTest_of_mem {r : RE} {s t : Str} (ht : t ∈ suffixes s)
    (h : matchAt r t ≠ []) : reTest r s = true := by
  unfold reTest
  refine List.any_eq_true.mpr ⟨t, ht, ?_⟩
  simp [List.isEmpty_iff, h]

/-- A substring occurrence decomposes into a suffix starting with it. -/
theorem containsSub_decomp {s sub : Str} (h : containsSub s sub = true) :
    ∃ t post, t ∈ suffixes s ∧ t = sub ++ post := by
  rcases List.any_eq_true.mp h with ⟨t, ht, hpre⟩
  rcases List.isPrefixOf_iff_prefix.mp hpre with ⟨post, hpost⟩
  exact ⟨t, post, ht, hpost.symm⟩

/-- A string containing a nonempty substring is nonempty. -/
theorem containsSub_ne_nil {s sub : Str} (hsub : sub ≠ [])
    (h : containsSub s sub = true) : s.isEmpty = false := by
  cases s with
  | nil =>
    exfalso
    rcases containsSub_decomp h with ⟨t, post, ht, rfl⟩
    simp [suffixes] at ht
    exact hsub ht.1
  | cons c cs => rfl

/-- A successful capture at a suffix position makes `firstCapture`
succeed. -/
theorem firstCapture_isSome {r : RE} {s t : Str} (ht : t ∈ suffixes s)
    (h : (capHere r t).isSome) : (firstCapture r s).isSome :=
  findSome_isSome_of_mem ht h

/-- A remainder whose line start is nonempty makes `capHere` succeed. -/
theorem capHere_isSome {r : RE} {t : Str} (rem : Str) (hrem : rem ∈ matchAt r t)
    (hne : rem.takeWhile (fun c => c ≠ '\n') ≠ []) :
    (capHere r t).isSome := by
  apply findSome_isSome_of_mem hrem
  have hemp : ¬ ((rem.takeWhile (fun c => c ≠ '\n')).isEmpty = true) :=
    fun hh => hne (List.isEmpty_iff.mp hh)
  show (if (rem.takeWhile (fun c => c ≠ '\n')).isEmpty = true then none
        else some (rem.takeWhile (fun c => c ≠ '\n'))).isSome = true
  rw [if_neg hemp]
  rfl

/-- Any output containing `NEXT_PHASE: Deploy to staging` makes the explicit
`NEXT_PHASE:` pattern (pattern 4) capture something, so the +0.6 explicit
marker test of `calculateConfidence` fires. -/
theorem nextPhase_pattern4_hits {out : Str}
    (h : containsSub out markerText = true) :
    ResultAnalyzer.nextPhasePatterns.any
      (fun p => (firstCapture p out).isSome) = true := by
  rcases containsSub_decomp h with ⟨t, post, ht, rfl⟩
  apply List.any_eq_true.mpr
  refine ⟨reSeq [reLit "NEXT_PHASE:", reWsStar],
    List.mem_cons_of_mem _ (List.mem_cons_of_mem _ (List.mem_cons_of_mem _
      (List.mem_cons_self _ _))), ?_⟩
  apply firstCapture_isSome ht
  have hdecomp : markerText ++ post =
      str "NEXT_PHASE:" ++ (str " Deploy to staging" ++ post) := by
    rw [← List.append_assoc]; rfl
  apply capHere_isSome (str " Deploy to staging" ++ post)
  · have hlit : matchAt (RE.lit (str "NEXT_PHASE:")) (markerText ++ post) =
        [str " Deploy to staging" ++ post] := by
      rw [hdecomp]; exact matchAt_lit_append _ _
    have hpat : reSeq [reLit "NEXT_PHASE:", reWsStar] =
        RE.cat (RE.lit (str "NEXT_PHASE:"))
          (RE.cat (RE.star isJsSpace) RE.eps) := rfl
    rw [hpat]
    refine mem_matchAt_cat (x := str " Deploy to staging" ++ post) ?_ ?_
    · rw [hlit]; exact List.mem_singleton.mpr rfl
    · exact mem_matchAt_cat (self_mem_starRem _ _) (List.mem_singleton.mpr rfl)
  · have hsp : List.takeWhile (fun c => decide (c ≠ '\n'))
        (str " Deploy to staging" ++ post) =
        ' ' :: List.takeWhile (fun c => decide (c ≠ '\n'))
          (str "Deploy to staging" ++ post) := by
      show List.takeWhile _ (' ' :: (str "Deploy to staging" ++ post)) = _
      rw [List.takeWhile_cons_of_pos (by decide)]
    intro hcontra
    rw [hsp] at hcontra
    cases hcontra

/-- Any output containing `NEXT_PHASE: Deploy to staging` contains the
continuation keyword `next` (case-insensitively), so the +0.2 keyword test
of `calculateConfidence` fires. -/
theorem continuation_kw_hits {out : Str}
    (h : containsSub out markerText = true) :
    reTest ResultAnalyzer.continuationKw out = true := by
  rcases containsSub_decomp h with ⟨t, post, ht, rfl⟩
  apply reTest_of_mem ht
  have hp : ciPrefix ['n', 'e', 'x', 't'] (markerText ++ post) = true :=
    ciPrefix_append _ markerText post (by decide)
  apply List.ne_nil_of_mem (a := List.drop 4 (markerText ++ post))
  show List.drop 4 (markerText ++ post) ∈
    matchAt (RE.alt (reLit "继续") (RE.alt (reLit "下一步")
      (RE.alt (reLit "next") (RE.alt (reLit "continue")
        (RE.pred (fun _ => false)))))) (markerText ++ post)
  simp only [matchAt]
  refine List.mem_append_right _ (List.mem_append_right _
    (List.mem_append_left _ ?_))
  rw [if_pos hp]
  exact List.mem_singleton.mpr rfl

/- ### Claim theorems -/

/-- C1 (counterexample): a subprocess that is still running when the
per-step timeout budget (300 s) expires does NOT yield a populated
ExecutionResult: both `ClaudeAdapter.executePrompt` and
`IFlowAdapter.executeSkill` reject (raise) with a timeout error, refuting
the claim that only a launch failure is surfaced as an error. -/
theorem timeout_rejects_instead_of_result_cex :
    ClaudeAdapter.executePrompt 300 (str "p") (str "s")
      (.runs 600000 0 (str "out") []) = .error .timeoutFailure ∧
    IFlowAdapter.executeSkill 300 (str "p") (str "s")
      (.runs 600000 0 (str "out") []) = .error .timeoutFailure := by
  exact ⟨rfl, rfl⟩

/-- C1 (amended): a run that closes before the timeout budget always yields
a populated ExecutionResult — also on a non-zero exit — with
`success ↔ exit code 0`, the captured stdout/stderr, and the duration;
a launch failure rejects with the spawn error, and (per the
counterexample) a timeout likewise rejects rather than yielding a result. -/
theorem exec_business_failure_yields_result
    (t : Nat) (prompt sessionId : Str) (close : Nat) (code : Int)
    (out err msg : Str) (h : close < t * 1000) :
    ClaudeAdapter.executePrompt t prompt sessionId (.runs close code out err) =
      .ok { success := code == 0, exitCode := code, output := some out,
            error := err, duration := close, command := some prompt,
            sessionId := sessionId } ∧
    IFlowAdapter.executeSkill t prompt sessionId (.runs close code out err) =
      .ok { success := code == 0, exitCode := code, output := some out,
            error := err, duration := close, command := some prompt,
            sessionId := sessionId } ∧
    ClaudeAdapter.executePrompt t prompt sessionId (.failToStart msg) =
      .error (.launchFailure msg) ∧
    IFlowAdapter.executeSkill t prompt sessionId (.failToStart msg) =
      .error (.launchFailure msg) := by
  refine ⟨?_, ?_, rfl, rfl⟩ <;>
    simp [ClaudeAdapter.executePrompt, IFlowAdapter.executeSkill,
          Nat.not_le.mpr h]

/-- C1 (witness for the amended theorem) at a concrete non-zero exit. -/
theorem exec_business_failure_yields_result_witness :
    ClaudeAdapter.executePrompt 300 (str "p") (str "s")
      (.runs 5 2 (str "boom") (str "err")) =
      .ok { success := (2 : Int) == 0, exitCode := 2, output := some (str "boom"),
            error := str "err", duration := 5, command := some (str "p"),
            sessionId := str "s" } ∧
    IFlowAdapter.executeSkill 300 (str "p") (str "s")
      (.runs 5 2 (str "boom") (str "err")) =
      .ok { success := (2 : Int) == 0, exitCode := 2, output := some (str "boom"),
            error := str "err", duration := 5, command := some (str "p"),
            sessionId := str "s" } ∧
    ClaudeAdapter.executePrompt 300 (str "p") (str "s") (.failToStart (str "ENOENT")) =
      .error (.launchFailure (str "ENOENT")) ∧
    IFlowAdapter.executeSkill 300 (str "p") (str "s") (.failToStart (str "ENOENT")) =
      .error (.launchFailure (str "ENOENT")) :=
  exec_business_failure_yields_result 300 (str "p") (str "s") 5 2
    (str "boom") (str "err") (str "ENOENT") (by decide)

/-- C2: the conversation key is NOT stable for a fixed (chatId, senderId):
`extractSessionId` embeds `Date.now().toString(36)`, so two messages of the
same conversation arriving at different clock values get different keys,
and the `processingSessions.has(...)` admission check of
`EventHandler.handle` therefore never rejects the second message — it is
processed and spawns a second subprocess.  (`md5hex` stands for the md5 hex
digest; the statement holds for every choice of it.) -/
theorem session_key_time_dependent (md5hex : Str → Str)
    (chatId senderId : Str) (t1 t2 : Nat)
    (h : natToBase36 t1 ≠ natToBase36 t2) :
    extractSessionId md5hex chatId senderId t1 ≠
      extractSessionId md5hex chatId senderId t2 ∧
    EventHandler.rejectsMessage [extractSessionId md5hex chatId senderId t1]
      md5hex chatId senderId t2 = false := by
  have hne : extractSessionId md5hex chatId senderId t1 ≠
      extractSessionId md5hex chatId senderId t2 := by
    intro he
    unfold extractSessionId at he
    exact h (List.append_cancel_left he)
  refine ⟨hne, ?_⟩
  simp only [EventHandler.rejectsMessage, List.contains, List.elem_cons,
    List.elem_nil]
  rw [beq_eq_false_iff_ne.mpr (Ne.symm hne)]

/-- C2 (witness): concrete instance — same chat and sender, two different
millisecond timestamps, distinct keys, admission guard passes the second
message. -/
theorem session_key_time_dependent_witness :
    extractSessionId (fun s => s) (str "c") (str "u") 0 ≠
      extractSessionId (fun s => s) (str "c") (str "u") 1 ∧
    EventHandler.rejectsMessage [extractSessionId (fun s => s) (str "c") (str "u") 0]
      (fun s => s) (str "c") (str "u") 1 = false :=
  session_key_time_dependent (fun s => s) (str "c") (str "u") 0 1 (by decide)

/-- C6: `needsIntervention` returns true whenever the analysis has an
error, or needs input, or the loop depth has reached the configured maximum,
or a Continue signal has confidence below the 0.3 threshold (confidence is
scaled by 10, so the threshold reads `< 3`). -/
theorem needsIntervention_forced (maxLoopDepth : Nat) (a : Analysis) (d : Nat)
    (h : a.hasError = true ∨ a.needsInput = true ∨ maxLoopDepth ≤ d ∨
         (a.canContinue = true ∧ a.confidence < 3)) :
    ResultAnalyzer.needsIntervention maxLoopDepth a d = true := by
  by_cases e1 : a.hasError
  · simp [ResultAnalyzer.needsIntervention, e1]
  by_cases e2 : a.needsInput
  · simp [ResultAnalyzer.needsIntervention, e1, e2]
  by_cases e3 : maxLoopDepth ≤ d
  · simp [ResultAnalyzer.needsIntervention, e1, e2, e3]
  rcases h with h | h | h | ⟨h1, h2⟩
  · exact absurd h e1
  · exact absurd h e2
  · exact absurd h e3
  · simp [ResultAnalyzer.needsIntervention, e1, e2, e3, h1, h2]

/-- C6 (witness): a low-confidence Continue signal at depth 0 under the
default maximum 100 forces intervention. -/
theorem needsIntervention_forced_witness :
    ResultAnalyzer.needsIntervention 100
      { canContinue := true, nextPhase := some (str "x"), isComplete := false,
        hasError := false, needsInput := false, summary := [],
        confidence := 2 } 0 = true :=
  needsIntervention_forced 100 _ 0 (Or.inr (Or.inr (Or.inr ⟨rfl, by decide⟩)))

/-- C8: any output matching a completion pattern classifies as complete and
skips next-phase extraction entirely: no Continue flag, no next phase, zero
confidence, whatever other marker text the output carries. -/
theorem completion_suppresses_extraction (r : ExecutionResult) (out : Str)
    (hout : r.output = some out) (hne : out.isEmpty = false)
    (hc : ResultAnalyzer.checkCompletion out = true) :
    (ResultAnalyzer.analyze (some r)).isComplete = true ∧
    (ResultAnalyzer.analyze (some r)).canContinue = false ∧
    (ResultAnalyzer.analyze (some r)).nextPhase = none ∧
    (ResultAnalyzer.analyze (some r)).confidence = 0 := by
  simp [ResultAnalyzer.analyze, hout, hne, ResultAnalyzer.analyzeCore, hc,
        ResultAnalyzer.neutralAnalysis]

/-- C8 (witness): the output `done` (completion keyword) with an explicit
marker present elsewhere would still classify as complete; here the plain
completion output. -/
theorem completion_suppresses_extraction_witness :
    (ResultAnalyzer.analyze (some doneResult)).isComplete = true ∧
    (ResultAnalyzer.analyze (some doneResult)).canContinue = false ∧
    (ResultAnalyzer.analyze (some doneResult)).nextPhase = none ∧
    (ResultAnalyzer.analyze (some doneResult)).confidence = 0 :=
  completion_suppresses_extraction doneResult (str "done") rfl rfl (by decide)

/-- C10: a null/undefined result, an absent output field, or an empty
output string all make `analyze` return the neutral analysis (all flags
false, no next phase, confidence 0, empty summary) without reaching the
pattern cascade or the last-line fallback. -/
theorem analyze_neutral_on_empty (r : ExecutionResult)
    (h : r.output = none ∨ r.output = some []) :
    ResultAnalyzer.analyze (some r) = ResultAnalyzer.neutralAnalysis ∧
    ResultAnalyzer.analyze none = ResultAnalyzer.neutralAnalysis := by
  refine ⟨?_, rfl⟩
  rcases h with h | h <;> simp [ResultAnalyzer.analyze, h]

/-- C10 (witness): a result with an empty output string. -/
theorem analyze_neutral_on_empty_witness :
    ResultAnalyzer.analyze (some emptyOutputResult) =
      ResultAnalyzer.neutralAnalysis ∧
    ResultAnalyzer.analyze none = ResultAnalyzer.neutralAnalysis :=
  analyze_neutral_on_empty emptyOutputResult (Or.inr rfl)

/-- C3 (counterexample): two results with identical output but different
`command` fields get different ClassificationSignals — the summary echoes
the command — refuting purity in the stdout text alone. -/
theorem analyze_command_dependence_cex :
    helloResult.output = helloResultCmd.output ∧
    ResultAnalyzer.analyze (some helloResult) ≠
      ResultAnalyzer.analyze (some helloResultCmd) :=
  ⟨rfl, by decide⟩

/-- C3 (amended): `analyze` is a pure function of the result's `output` and
`command` fields: identical output makes every classification field
(canContinue, nextPhase, isComplete, hasError, needsInput, confidence)
identical, and identical output and command make the whole signal — summary
included — identical. -/
theorem analyze_pure_in_output_and_command (r1 r2 : ExecutionResult)
    (hout : r1.output = r2.output) :
    ((ResultAnalyzer.analyze (some r1)).canContinue =
       (ResultAnalyzer.analyze (some r2)).canContinue ∧
     (ResultAnalyzer.analyze (some r1)).nextPhase =
       (ResultAnalyzer.analyze (some r2)).nextPhase ∧
     (ResultAnalyzer.analyze (some r1)).isComplete =
       (ResultAnalyzer.analyze (some r2)).isComplete ∧
     (ResultAnalyzer.analyze (some r1)).hasError =
       (ResultAnalyzer.analyze (some r2)).hasError ∧
     (ResultAnalyzer.analyze (some r1)).needsInput =
       (ResultAnalyzer.analyze (some r2)).needsInput ∧
     (ResultAnalyzer.analyze (some r1)).confidence =
       (ResultAnalyzer.analyze (some r2)).confidence) ∧
    (r1.command = r2.command →
      ResultAnalyzer.analyze (some r1) = ResultAnalyzer.analyze (some r2)) := by
  have hsum : ∀ a : Analysis, r1.command = r2.command →
      ResultAnalyzer.generateSummary r1 a = ResultAnalyzer.generateSummary r2 a := by
    intro a hc
    simp [ResultAnalyzer.generateSummary, hc, hout]
  simp only [ResultAnalyzer.analyze, hout]
  cases h2 : r2.output with
  | none => simp
  | some out =>
    by_cases he : out.isEmpty <;> simp [he]
    exact fun hc => hsum _ hc

/-- C3 (witness for the amended theorem): identical output, identical
command, different remaining fields — identical signal. -/
theorem analyze_pure_in_output_and_command_witness :
    ((ResultAnalyzer.analyze (some helloResult)).canContinue =
       (ResultAnalyzer.analyze (some helloResultOther)).canContinue ∧
     (ResultAnalyzer.analyze (some helloResult)).nextPhase =
       (ResultAnalyzer.analyze (some helloResultOther)).nextPhase ∧
     (ResultAnalyzer.analyze (some helloResult)).isComplete =
       (ResultAnalyzer.analyze (some helloResultOther)).isComplete ∧
     (ResultAnalyzer.analyze (some helloResult)).hasError =
       (ResultAnalyzer.analyze (some helloResultOther)).hasError ∧
     (ResultAnalyzer.analyze (some helloResult)).needsInput =
       (ResultAnalyzer.analyze (some helloResultOther)).needsInput ∧
     (ResultAnalyzer.analyze (some helloResult)).confidence =
       (ResultAnalyzer.analyze (some helloResultOther)).confidence) ∧
    (helloResult.command = helloResultOther.command →
      ResultAnalyzer.analyze (some helloResult) =
        ResultAnalyzer.analyze (some helloResultOther)) :=
  analyze_pure_in_output_and_command helloResult helloResultOther rfl

/-- C4 (counterexample): at the default configured maximum loop depth
(`MAX_LOOP_DEPTH` = 100), accepting one more Continue record pushes
`loopDepth` to 101 — beyond the maximum — while the status stays `active`:
nothing in `SessionManager` caps the depth or escalates the session. -/
theorem loop_depth_exceeds_cap_cex :
    (SessionManager.addExecutionRecord sessionAtCap continueRecord
       (str "t1")).loopDepth = 101 ∧
    100 < (SessionManager.addExecutionRecord sessionAtCap continueRecord
       (str "t1")).loopDepth ∧
    (SessionManager.addExecutionRecord sessionAtCap continueRecord
       (str "t1")).status = str "active" := by
  decide

/-- C4 (amended): `loopDepth` starts at 0 on creation and is changed by
`addExecutionRecord` only, which increments it by exactly one when and only
when the record carries a truthy nextPhase (an accepted Continue); but no
maximum is enforced there: the status is never changed by the bookkeeping
(there is no Escalated transition), and only the separate — and never
called — `needsIntervention` reports depths at or above the maximum. -/
theorem loop_depth_dynamics (sid : Str) (su sc sm : Option Str)
    (now now2 : Str) (s : Session) (r : RecordInput)
    (maxLoopDepth d : Nat) (a : Analysis) (hd : maxLoopDepth ≤ d) :
    (SessionManager.createSession sid su sc sm now).loopDepth = 0 ∧
    (SessionManager.createSession sid su sc sm now).status = str "active" ∧
    (SessionManager.addExecutionRecord s r now2).loopDepth =
      s.loopDepth + (if jsTruthy r.nextPhase then 1 else 0) ∧
    (SessionManager.addExecutionRecord s r now2).status = s.status ∧
    ResultAnalyzer.needsIntervention maxLoopDepth a d = true := by
  refine ⟨rfl, rfl, ?_, ?_, ?_⟩
  · by_cases h : jsTruthy r.nextPhase <;>
      simp [SessionManager.addExecutionRecord, h]
  · by_cases h : jsTruthy r.nextPhase <;>
      simp [SessionManager.addExecutionRecord, h]
  · by_cases h1 : a.hasError
    · simp [ResultAnalyzer.needsIntervention, h1]
    by_cases h2 : a.needsInput <;>
      simp [ResultAnalyzer.needsIntervention, h1, h2, hd]

/-- C4 (witness for the amended theorem) at concrete inputs, with the depth
already at the default maximum. -/
theorem loop_depth_dynamics_witness :
    (SessionManager.createSession (str "s") (some (str "u")) (some (str "c"))
       (some (str "m")) (str "t0")).loopDepth = 0 ∧
    (SessionManager.createSession (str "s") (some (str "u")) (some (str "c"))
       (some (str "m")) (str "t0")).status = str "active" ∧
    (SessionManager.addExecutionRecord sessionAtCap continueRecord
       (str "t1")).loopDepth =
      sessionAtCap.loopDepth + (if jsTruthy continueRecord.nextPhase then 1 else 0) ∧
    (SessionManager.addExecutionRecord sessionAtCap continueRecord
       (str "t1")).status = sessionAtCap.status ∧
    ResultAnalyzer.needsIntervention 100 ResultAnalyzer.neutralAnalysis 100 = true :=
  loop_depth_dynamics (str "s") (some (str "u")) (some (str "c"))
    (some (str "m")) (str "t0") (str "t1") sessionAtCap continueRecord
    100 100 ResultAnalyzer.neutralAnalysis (by decide)

/-- C5: the markdown round-trip does not reproduce `loopDepth`.  On a
session with depth 1 whose single history record was recorded at depth 0,
`parseSessionFromMarkdown (formatSessionToMarkdown s)` yields depth 0: the
parser's session-level `- **循环深度**:` branch also matches the per-record
depth lines (the record-level branches below it are unreachable), so the
last record's depth clobbers the session's.  Status and — here — lastPhase
survive. -/
theorem roundtrip_loses_loopDepth :
    roundtripSample.loopDepth = 1 ∧
    (SessionManager.parseSessionFromMarkdown
       (SessionManager.formatSessionToMarkdown roundtripSample)).loopDepth =
      some 0 ∧
    (SessionManager.parseSessionFromMarkdown
       (SessionManager.formatSessionToMarkdown roundtripSample)).status =
      some (str "active") ∧
    (SessionManager.parseSessionFromMarkdown
       (SessionManager.formatSessionToMarkdown roundtripSample)).nextPhase =
      some (str "go") := by
  refine ⟨rfl, by decide, by decide, by decide⟩

/-- C7: `executeWithRetry` with maxRetries = 3 against attempts that always
resolve with non-success results performs exactly 3 launches, sleeps
1000 ms and then 2000 ms between them (linear back-off, base 1000 ×
attempt number), and returns the third failed result without throwing; and
a success at attempt k ≤ 3 (after failed earlier attempts) short-circuits:
k launches, delays up to 1000·(k−1), that result returned. -/
theorem executeWithRetry_policy :
    (∀ (att : Nat → Except AdapterError ExecutionResult)
       (res : Nat → ExecutionResult),
        (∀ n, att n = .ok (res n)) → (∀ n, (res n).success = false) →
        executeWithRetry att 3 = ⟨3, [1000, 2000], .ok (res 3)⟩) ∧
    (∀ (att : Nat → Except AdapterError ExecutionResult) (k : Nat)
       (r : ExecutionResult),
        1 ≤ k → k ≤ 3 →
        (∀ i, 1 ≤ i → i < k → ∃ ri, att i = .ok ri ∧ ri.success = false) →
        att k = .ok r → r.success = true →
        executeWithRetry att 3 =
          ⟨k, (List.range (k - 1)).map (fun i => 1000 * (i + 1)), .ok r⟩) := by
  constructor
  · intro att res hok hfail
    show retryLoop att 1 2 = _
    simp [retryLoop, hok 1, hok 2, hok 3, hfail 1, hfail 2]
  · intro att k r hk1 hk3 hprev hk hs
    interval_cases k
    · show retryLoop att 1 2 = _
      simp [retryLoop, hk, hs]
    · obtain ⟨r1, h1, hf1⟩ := hprev 1 le_rfl (by norm_num)
      show retryLoop att 1 2 = _
      simp [retryLoop, h1, hf1, hk, hs]
      decide
    · obtain ⟨r1, h1, hf1⟩ := hprev 1 le_rfl (by norm_num)
      obtain ⟨r2, h2, hf2⟩ := hprev 2 (by norm_num) (by norm_num)
      show retryLoop att 1 2 = _
      simp [retryLoop, h1, hf1, h2, hf2, hk, hs]
      decide

/-- C7 (witness): concrete behaviours — always failing, and succeeding at
the second attempt. -/
theorem executeWithRetry_policy_witness :
    executeWithRetry attemptsAlwaysFail 3 =
      ⟨3, [1000, 2000], .ok failedResult⟩ ∧
    executeWithRetry attemptsSucceedAt2 3 = ⟨2, [1000], .ok okResult⟩ := by
  constructor
  · exact executeWithRetry_policy.1 attemptsAlwaysFail (fun _ => failedResult)
      (fun _ => rfl) (fun _ => rfl)
  · exact executeWithRetry_policy.2 attemptsSucceedAt2 2 okResult
      (by decide) (by decide)
      (fun i h1 h2 => by
        have hi : i = 1 := Nat.le_antisymm (Nat.lt_succ_iff.mp h2) h1
        subst hi
        exact ⟨failedResult, rfl, rfl⟩)
      rfl rfl

/-- C9 (counterexample): an output containing
`NEXT_PHASE: Deploy to staging` together with a completion keyword is NOT
classified Continue — completion suppresses extraction — refuting the claim
quantified over every stdout containing that text. -/
theorem marker_suppressed_by_completion_cex :
    containsSub (str "done NEXT_PHASE: Deploy to staging") markerText = true ∧
    (ResultAnalyzer.analyze (some doneWithMarkerResult)).canContinue = false ∧
    (ResultAnalyzer.analyze (some doneWithMarkerResult)).nextPhase = none ∧
    (ResultAnalyzer.analyze (some doneWithMarkerResult)).confidence = 0 := by
  decide

/-- C9 (amended): for every stdout that contains
`NEXT_PHASE: Deploy to staging`, matches no completion pattern, and whose
next-phase extraction yields exactly `Deploy to staging` (as it does for the
verbatim marker line), classify returns a Continue signal with that next
phase and confidence 1.0 ≥ 0.6 (scaled: 10 ≥ 6): the explicit marker
contributes +0.6, the 17-character phase exceeds 10 and contributes +0.2,
and the continuation-keyword bonus +0.2 always fires because `NEXT_PHASE`
itself contains the keyword `next`. -/
theorem marker_continue_confidence (r : ExecutionResult) (out : Str)
    (hout : r.output = some out)
    (hsub : containsSub out markerText = true)
    (hnc : ResultAnalyzer.checkCompletion out = false)
    (hx : ResultAnalyzer.extractNextPhase out = some (str "Deploy to staging")) :
    (ResultAnalyzer.analyze (some r)).canContinue = true ∧
    (ResultAnalyzer.analyze (some r)).nextPhase =
      some (str "Deploy to staging") ∧
    (ResultAnalyzer.analyze (some r)).confidence = 10 ∧
    6 ≤ (ResultAnalyzer.analyze (some r)).confidence := by
  have hne : out.isEmpty = false := containsSub_ne_nil (by decide) hsub
  have hc1 := nextPhase_pattern4_hits hsub
  have hc3 := continuation_kw_hits hsub
  have hlen : (!(str "Deploy to staging").isEmpty ∧
      10 < utf16Len (str "Deploy to staging")) := by decide
  have hconf : ResultAnalyzer.calculateConfidence out
      (str "Deploy to staging") = 10 := by
    simp [ResultAnalyzer.calculateConfidence, hc1, hc3, hlen]
  have htrim : jsTrim (str "Deploy to staging") = str "Deploy to staging" := by
    decide
  simp [ResultAnalyzer.analyze, hout, hne, ResultAnalyzer.analyzeCore, hnc,
        hx, hconf, htrim]

/-- C9 (witness for the amended theorem): the verbatim marker line. -/
theorem marker_continue_confidence_witness :
    (ResultAnalyzer.analyze (some markerResult)).canContinue = true ∧
    (ResultAnalyzer.analyze (some markerResult)).nextPhase =
      some (str "Deploy to staging") ∧
    (ResultAnalyzer.analyze (some markerResult)).confidence = 10 ∧
    6 ≤ (ResultAnalyzer.analyze (some markerResult)).confidence :=
  marker_continue_confidence markerResult markerText rfl (by decide)
    (by decide) (by decide)
